import Mathlib

/-!
Shallow embedding of the Clinic-Backend WhatsApp relay server (src/index.js).

The server keeps a handful of global session flags, formats chats and
messages coming out of the external WhatsApp adapter, and maps socket
requests to adapter calls plus emitted events.  Adapter behaviour
(getChats, getChatById, fetchMessages, downloadMedia, sendMessage) is
modelled by explicit oracles: each handler takes the outcome the adapter
would produce and returns the list of events it emits together with the
trace of adapter calls it performs.  JavaScript truthiness on strings
("" is falsy) is modelled by `jsOrS`; `null`/`undefined` object fields
by `Option`; a thrown exception by `Except.error`.
-/

namespace ClinicBackend

/-- JavaScript `a || b` on strings: the empty string is falsy. -/
def jsOrS (a b : String) : String := if a = "" then b else a

/-- Substring test, modelling JavaScript `String(s).includes(pat)`. -/
def containsSub (s pat : String) : Bool := decide (pat.data <:+: s.data)

/-- Global session state of index.js: the `client` reference (modelled by
whether it is non-null), `clientInitialized`, `isClientReady`,
`isInitializing` and `lastQrDataUrl` (lines 87-90 and 261). -/
structure SessState where
  hasClient : Bool
  clientInitialized : Bool
  isClientReady : Bool
  isInitializing : Bool
  lastQrDataUrl : Option String
deriving Repr, DecidableEq

/-- Raw chat id object from the adapter: `_serialized` and `user`
(`""` models an absent `user`). -/
structure RawId where
  serialized : String
  user : String
deriving Repr, DecidableEq

/-- Raw `lastMessage` object on an adapter chat. -/
structure RawLastMessage where
  body : String
  hasMedia : Bool
deriving Repr, DecidableEq

/-- Raw chat object as returned by the adapter's `getChats()`; string
fields use `""` for an absent/falsy value, mirroring JS truthiness. -/
structure RawChat where
  id : RawId
  name : String
  formattedTitle : String
  isGroup : Bool
  unreadCount : Nat
  timestamp : Nat
  lastMessage : Option RawLastMessage
deriving Repr, DecidableEq

/-- Simplified chat shape produced by `getFormattedChats` (index.js
lines 302-317), including the `profilePicUrl` field the code always
sets to `null`. -/
structure Chat where
  id : String
  name : String
  isGroup : Bool
  unreadCount : Nat
  timestamp : Nat
  profilePicUrl : Option String
  lastMessage : String
deriving Repr, DecidableEq

/-- Projection of one raw chat to the simplified shape, line for line
from the `.map` callback of `getFormattedChats` (index.js 302-317). -/
def formatChat (c : RawChat) : Chat :=
  { id := c.id.serialized
    name := jsOrS c.name (jsOrS c.formattedTitle (jsOrS c.id.user c.id.serialized))
    isGroup := c.isGroup
    unreadCount := c.unreadCount
    timestamp := c.timestamp
    profilePicUrl := none
    lastMessage :=
      match c.lastMessage with
      | none => ""
      | some lm => jsOrS lm.body (if lm.hasMedia then "📷 Media" else "") }

/-- Outcome of one run of `getFormattedChats`: the returned list, the
number of `client.getChats()` invocations performed, and the total
artificial retry delay waited (ms). -/
structure FetchRun where
  chats : List Chat
  calls : Nat
  delayMs : Nat
deriving Repr, DecidableEq

/-- One attempt body of `getFormattedChats` (index.js 291-338) with its
retry recursion: `oracle k` is the outcome of the k-th `client.getChats()`
call (`.error msg` models a throw with message `msg`).  Each recursive
call re-checks the ready flags like the source does; on a non
session-closed failure with retries left it waits 500ms and recurses. -/
def getChatsAttempt (ready hasClient : Bool) (oracle : Nat → Except String (List RawChat))
    (k retries : Nat) : FetchRun :=
  if !ready || !hasClient then ⟨[], 0, 0⟩
  else
    match oracle k with
    | .ok raw => ⟨(raw.take 50).map formatChat, 1, 0⟩
    | .error msg =>
      if containsSub msg "Session closed" then ⟨[], 1, 0⟩
      else
        match retries with
        | 0 => ⟨[], 1, 0⟩
        | r + 1 =>
          let rest := getChatsAttempt ready hasClient oracle (k + 1) r
          ⟨rest.chats, rest.calls + 1, rest.delayMs + 500⟩
termination_by retries

/-- `getFormattedChats()` as called with the default `retries = 3`
(index.js 291). -/
def getFormattedChats (ready hasClient : Bool)
    (oracle : Nat → Except String (List RawChat)) : FetchRun :=
  getChatsAttempt ready hasClient oracle 0 3

/-- Raw message id object (`m.id` may be null; `_serialized` may be a
falsy empty string). -/
structure RawMsgId where
  serialized : String
deriving Repr, DecidableEq

/-- Raw media object yielded by `downloadMedia()`; `""` models a
falsy/absent `mimetype`, `data` or `filename`. -/
structure RawMedia where
  mimetype : String
  data : String
  filename : String
  filesize : Nat
deriving Repr, DecidableEq

deriving instance DecidableEq for Except

/-- Raw message from the adapter's `fetchMessages`.  The `download`
field embeds the outcome `m.downloadMedia()` would produce for this
message: a throw (`.error`), a falsy result (`.ok none`) or a media
object (`.ok (some _)`). -/
structure RawMsg where
  id : Option RawMsgId
  body : String
  fromMe : Bool
  timestamp : Nat
  hasMedia : Bool
  type : String
  ack : Int
  download : Except String (Option RawMedia)
deriving Repr, DecidableEq

/-- Media payload attached to a simplified message (index.js 448-453):
`{mimetype, data, filename, size}`. -/
structure MsgMedia where
  mimetype : String
  data : String
  filename : String
  size : Nat
deriving Repr, DecidableEq

/-- Simplified message shape sent in `chat-messages` (index.js 431-440). -/
structure Msg where
  id : String
  body : String
  fromMe : Bool
  timestamp : Nat
  hasMedia : Bool
  type : Option String
  ack : Int
  media : Option MsgMedia
deriving Repr, DecidableEq

/-- Media payload of a `message-media-data` event (index.js 496-500):
no size field and no filename fallback, unlike `MsgMedia`. -/
structure MediaOut where
  mimetype : String
  data : String
  filename : String
deriving Repr, DecidableEq

/-- Incoming media object of a `send-message` request payload. -/
structure MediaIn where
  mimetype : String
  data : String
  filename : String
deriving Repr, DecidableEq

/-- Finalized message object resolved by `client.sendMessage`. -/
structure SentMsg where
  id : String
  body : String
  fromMe : Bool
  timestamp : Nat
  hasMedia : Bool
  type : String
  ack : Int
deriving Repr, DecidableEq

/-- Confirmation payload of `message_sent_confirmation` (index.js
545-554). -/
structure ConfPayload where
  id : String
  body : String
  fromMe : Bool
  timestamp : Nat
  hasMedia : Bool
  type : String
  ack : Int
  media : Option MediaIn
deriving Repr, DecidableEq

/-- Events the server emits on the realtime channel (direct to the
requesting socket or broadcast, depending on the handler). -/
inductive Event where
  | errorMessage (s : String)
  | chats (cs : List Chat)
  | chatMessages (chatId : String) (messages : List Msg)
  | messageMediaData (messageId : String) (media : MediaOut)
  | messageMediaFailed (messageId : String)
  | messageSentConfirmation (tempId : String) (payload : ConfPayload)
  | sendMessageError (tempId : String) (error : String)
  | status (s : String)
  | loggedOut
deriving Repr, DecidableEq

/-- Payload variants of a `client.sendMessage` call: a `MessageMedia`
with caption, or plain text. -/
inductive SendPayload where
  | mediaMsg (mimetype data filename caption : String)
  | textMsg (message : String)
deriving Repr, DecidableEq

/-- Adapter operations a handler may invoke, for tracing that a handler
performs (or performs no) adapter calls. -/
inductive AdapterCall where
  | getChats
  | getChatById (chatId : String)
  | fetchMessages (chatId : String) (limit : Nat)
  | downloadMedia
  | sendMessage (chatId : String) (payload : SendPayload)
deriving Repr, DecidableEq

/-- Projection of one raw message in `get-chat-messages` (index.js
430-462).  `nowMs` models `Date.now()` (ms; the `timestamp` fallback is
`Math.floor(Date.now() / 1000)`), `rand` models the `Math.random()`
suffix of the id fallback. -/
def projectMsg (nowMs : Nat) (rand : RawMsg → String) (m : RawMsg) : Msg :=
  { id :=
      match m.id with
      | some i => jsOrS i.serialized (toString m.timestamp ++ "-" ++ rand m)
      | none => toString m.timestamp ++ "-" ++ rand m
    body := m.body
    fromMe := m.fromMe
    timestamp := if m.timestamp = 0 then nowMs / 1000 else m.timestamp
    hasMedia := m.hasMedia
    type := if m.type = "" then none else some m.type
    ack := m.ack
    media :=
      if m.hasMedia && !(m.type = "") then
        match m.download with
        | .ok (some media) =>
          if media.data = "" then none
          else
            some { mimetype := media.mimetype
                   data := media.data
                   filename := jsOrS media.filename ("media_" ++ toString nowMs)
                   size := media.filesize }
        | .ok none => none
        | .error _ => none
      else none }

/-- A chat object resolved by `getChatById`: `fetch n` is the outcome of
`chat.fetchMessages({limit: n})`. -/
structure ChatObj where
  fetch : Nat → Except String (List RawMsg)

/-- The not-ready error string emitted by `get-chats` and
`get-chat-messages` (index.js 402 and 417). -/
def notReadyError : String := "WhatsApp client not ready yet"

/-- `socket.on("get-chats")` handler (index.js 399-412).  Checks only
`isClientReady`; the `catch` branch emitting `chats []` is unreachable
because `getFormattedChats` never throws. -/
def handleGetChats (st : SessState)
    (oracle : Nat → Except String (List RawChat)) : List Event × List AdapterCall :=
  if !st.isClientReady then ([.errorMessage notReadyError], [])
  else
    let run := getFormattedChats st.isClientReady st.hasClient oracle
    ([.chats run.chats], List.replicate run.calls .getChats)

/-- `socket.on("get-chat-messages")` handler (index.js 414-472).
`lookup` is the outcome of `client.getChatById(chatId)` (a throw, a
falsy chat, or a chat object); per-message `downloadMedia` outcomes are
embedded in the raw messages.  Any throw lands in the catch emitting
`chat-messages {chatId, messages: []}`. -/
def handleGetChatMessages (st : SessState) (chatId : String)
    (lookup : Except String (Option ChatObj)) (nowMs : Nat)
    (rand : RawMsg → String) : List Event × List AdapterCall :=
  if !st.isClientReady then ([.errorMessage notReadyError], [])
  else
    match lookup with
    | .error _ => ([.chatMessages chatId []], [.getChatById chatId])
    | .ok none => ([.chatMessages chatId []], [.getChatById chatId])
    | .ok (some chat) =>
      match chat.fetch 100 with
      | .error _ => ([.chatMessages chatId []], [.getChatById chatId, .fetchMessages chatId 100])
      | .ok msgs =>
        let kept := msgs.filter (fun m => m.type ≠ "revoked")
        let simplified := kept.map (projectMsg nowMs rand)
        let mediaCalls : List AdapterCall :=
          (kept.filter (fun m => m.hasMedia && !(m.type = ""))).map (fun _ => .downloadMedia)
        ([.chatMessages chatId simplified],
         [.getChatById chatId, .fetchMessages chatId 100] ++ mediaCalls)

/-- `messages.find(m => m.id._serialized === messageId)` (index.js
487-489): accessing `_serialized` on a null id throws, which the
handler's catch turns into a failure event. -/
def findMsg (mid : String) : List RawMsg → Except String (Option RawMsg)
  | [] => .ok none
  | m :: rest =>
    match m.id with
    | none => .error "TypeError"
    | some i => if i.serialized = mid then .ok (some m) else findMsg mid rest

/-- `socket.on("get-message-media")` handler (index.js 474-514).
Silently returns when not ready; otherwise resolves the chat, fetches
the last 200 messages, finds the target by id and downloads its media,
emitting `message-media-data` or `message-media-failed`. -/
def handleGetMessageMedia (st : SessState) (chatId messageId : String)
    (lookup : Except String (Option ChatObj)) : List Event × List AdapterCall :=
  if !st.isClientReady then ([], [])
  else
    match lookup with
    | .error _ => ([.messageMediaFailed messageId], [.getChatById chatId])
    | .ok none => ([.messageMediaFailed messageId], [.getChatById chatId])
    | .ok (some chat) =>
      let baseCalls : List AdapterCall := [.getChatById chatId, .fetchMessages chatId 200]
      match chat.fetch 200 with
      | .error _ => ([.messageMediaFailed messageId], baseCalls)
      | .ok msgs =>
        match findMsg messageId msgs with
        | .error _ => ([.messageMediaFailed messageId], baseCalls)
        | .ok none => ([.messageMediaFailed messageId], baseCalls)
        | .ok (some m) =>
          if m.hasMedia then
            match m.download with
            | .error _ => ([.messageMediaFailed messageId], baseCalls ++ [.downloadMedia])
            | .ok none => ([.messageMediaFailed messageId], baseCalls ++ [.downloadMedia])
            | .ok (some media) =>
              if media.mimetype ≠ "" ∧ media.data ≠ "" then
                ([.messageMediaData messageId
                    { mimetype := media.mimetype, data := media.data,
                      filename := media.filename }],
                 baseCalls ++ [.downloadMedia])
              else ([.messageMediaFailed messageId], baseCalls ++ [.downloadMedia])
          else ([.messageMediaFailed messageId], baseCalls)

/-- Payload of a `send-message` request: `null`/`undefined` (not
destructurable) or an object `{chatId, message, tempId, media}`. -/
inductive SendData where
  | nullData
  | obj (chatId message tempId : String) (media : Option MediaIn)
deriving Repr, DecidableEq

/-- `socket.on("send-message")` handler (index.js 516-570).  `send` is
the outcome of `client.sendMessage`.  For a null payload, the
destructuring on line 519 throws before anything is emitted and the
catch block's `data.tempId` access (line 566) throws again, so nothing
is emitted and no adapter call is made. -/
def handleSendMessage (st : SessState) (send : Except String SentMsg)
    (data : SendData) : List Event × List AdapterCall :=
  match data with
  | .nullData => ([], [])
  | .obj chatId message tempId media =>
    if !st.isClientReady || !st.hasClient then
      ([.sendMessageError tempId "WhatsApp client not ready."], [])
    else
      let payload : SendPayload :=
        match media with
        | some mi =>
          if mi.data ≠ "" then .mediaMsg mi.mimetype mi.data mi.filename (jsOrS message "")
          else .textMsg message
        | none => .textMsg message
      match send with
      | .ok sent =>
        ([.messageSentConfirmation tempId
            { id := sent.id
              body := jsOrS sent.body (jsOrS message "")
              fromMe := sent.fromMe
              timestamp := sent.timestamp
              hasMedia := sent.hasMedia
              type := sent.type
              ack := sent.ack
              media := media }],
         [.sendMessage chatId payload])
      | .error _ =>
        ([.sendMessageError tempId "Failed to send message."],
         [.sendMessage chatId payload])

/-- Whether a run of `initializeClientIfNeeded` reached the
`await client.initialize()` call (index.js 278) or returned before it. -/
inductive InitAction where
  | started
  | skipped
deriving Repr, DecidableEq

/-- Number of `client.initialize()` invocations an `InitAction` stands
for. -/
def initCount : InitAction → Nat
  | .started => 1
  | .skipped => 0

/-- Synchronous first phase of `initializeClientIfNeeded` (index.js
263-278), up to the suspension at `await client.initialize()`: bail out
if `isInitializing`; create a client if absent; bail out if already
initialized and ready; otherwise set `isInitializing := true` and start
the adapter's initialization. -/
def initializeClientIfNeededPhase1 (s : SessState) : SessState × InitAction :=
  if s.isInitializing then (s, .skipped)
  else
    let s1 := if !s.hasClient then { s with hasClient := true } else s
    if s1.clientInitialized && s1.isClientReady then (s1, .skipped)
    else ({ s1 with isInitializing := true }, .started)

/-- Resumption of `initializeClientIfNeeded` after
`await client.initialize()` settles (index.js 279-287): on success mark
initialized; on failure mark not initialized and broadcast an error;
the `finally` clears `isInitializing` on both paths. -/
def initializeClientIfNeededPhase2 (s : SessState) (ok : Bool) : SessState × List Event :=
  if ok then ({ s with clientInitialized := true, isInitializing := false }, [])
  else ({ s with clientInitialized := false, isInitializing := false },
        [.errorMessage "Failed to initialize WhatsApp client"])

/-- Result of the `disconnected` handler: the session state, whether the
session-store directory exists afterwards, the broadcast events, and the
delay before the scheduled recreate/re-init (index.js 179-182). -/
structure DiscOut where
  state : SessState
  dirExists : Bool
  events : List Event
  reinitDelayMs : Nat
deriving Repr, DecidableEq

/-- `client.on("disconnected")` handler (index.js 155-183).  `destroyOut`
and `rmOut` are the outcomes of `client.destroy()` and
`fs.rm(AUTH_FOLDER_PATH, {recursive: true, force: true})`; both throws
are caught and only logged, so a failed `fs.rm` leaves the directory as
it was.  Flags are reset, then `status "disconnected"` and `logged_out`
are broadcast, and a recreate/re-init is scheduled after 700ms. -/
def handleDisconnected (s : SessState) (dirBefore : Bool)
    (destroyOut rmOut : Except String Unit) : DiscOut :=
  let _ := destroyOut
  { state :=
      { s with
        hasClient := false
        isClientReady := false
        clientInitialized := false
        lastQrDataUrl := none }
    dirExists := match rmOut with | .ok _ => false | .error _ => dirBefore
    events := [.status "disconnected", .loggedOut]
    reinitDelayMs := 700 }

/-- Predicate for the two send outcomes keyed by a given `tempId`. -/
def isSendOutcomeFor (tempId : String) : Event → Bool
  | .messageSentConfirmation t _ => t = tempId
  | .sendMessageError t _ => t = tempId
  | _ => false

lemma getChatsAttempt_chats_length (ready hc : Bool)
    (oracle : Nat → Except String (List RawChat)) :
    ∀ retries k, (getChatsAttempt ready hc oracle k retries).chats.length ≤ 50 := by
  intro retries
  induction retries with
  | zero =>
    intro k
    rw [getChatsAttempt]
    split
    · simp
    · split
      · simp
      · split
        · simp
        · simp
  | succ r ih =>
    intro k
    rw [getChatsAttempt]
    split
    · simp
    · split
      · simp
      · split
        · simp
        · simpa using ih (k + 1)

lemma getChatsAttempt_profilePic (ready hc : Bool)
    (oracle : Nat → Except String (List RawChat)) :
    ∀ retries k c, c ∈ (getChatsAttempt ready hc oracle k retries).chats →
      c.profilePicUrl = none := by
  intro retries
  induction retries with
  | zero =>
    intro k c hmem
    rw [getChatsAttempt] at hmem
    split at hmem
    · simp at hmem
    · split at hmem
      · simp only [List.mem_map] at hmem
        obtain ⟨r, _, hr⟩ := hmem
        rw [← hr]; rfl
      · split at hmem
        · simp at hmem
        · simp at hmem
  | succ r ih =>
    intro k c hmem
    rw [getChatsAttempt] at hmem
    split at hmem
    · simp at hmem
    · split at hmem
      · simp only [List.mem_map] at hmem
        obtain ⟨rc, _, hr⟩ := hmem
        rw [← hr]; rfl
      · split at hmem
        · simp at hmem
        · exact ih (k + 1) c hmem

lemma projectMsg_type_ne_revoked (nowMs : Nat) (rand : RawMsg → String)
    (m : RawMsg) (h : m.type ≠ "revoked") :
    (projectMsg nowMs rand m).type ≠ some "revoked" := by
  simp only [projectMsg]
  by_cases ht : m.type = ""
  · simp [ht]
  · simp only [ht, if_neg ht]
    intro hcontra
    exact h (Option.some.inj hcontra)

lemma findMsg_no_media (mid : String) :
    ∀ msgs : List RawMsg,
      (∀ m ∈ msgs, ∀ i, m.id = some i → i.serialized = mid → m.hasMedia = false) →
      match findMsg mid msgs with
      | .ok (some m) => m.hasMedia = false
      | _ => True := by
  intro msgs
  induction msgs with
  | nil => intro _; simp [findMsg]
  | cons m rest ih =>
    intro hall
    rw [findMsg]
    cases hid : m.id with
    | none => trivial
    | some i =>
      by_cases hs : i.serialized = mid
      · simp only [if_pos hs]
        exact hall m (List.mem_cons_self m rest) i hid hs
      · simp only [if_neg hs]
        exact ih (fun x hx => hall x (List.mem_cons_of_mem m hx))

lemma initializeClientIfNeededPhase1_started (s : SessState)
    (h : (initializeClientIfNeededPhase1 s).2 = .started) :
    (initializeClientIfNeededPhase1 s).1.isInitializing = true := by
  obtain ⟨b1, b2, b3, b4, q⟩ := s
  cases b1 <;> cases b2 <;> cases b3 <;> cases b4 <;>
    simp_all [initializeClientIfNeededPhase1]

lemma initializeClientIfNeededPhase1_of_initializing (s : SessState)
    (h : s.isInitializing = true) :
    initializeClientIfNeededPhase1 s = (s, .skipped) := by
  unfold initializeClientIfNeededPhase1
  simp [h]

/-- C1: for every send-message request carrying a temporary id `tempId`
(a destructurable payload), the handler emits exactly one of
`message_sent_confirmation` or `send_message_error` keyed by that
`tempId` — never both, never neither — for every session state, media
variant, and adapter outcome. -/
theorem send_message_exactly_one_outcome (st : SessState)
    (send : Except String SentMsg) (chatId message tempId : String)
    (media : Option MediaIn) :
    ((handleSendMessage st send (.obj chatId message tempId media)).1.countP
      (isSendOutcomeFor tempId)) = 1 := by
  cases h1 : (!st.isClientReady || !st.hasClient) <;> cases send <;>
    simp [handleSendMessage, h1, isSendOutcomeFor]

/-- C9: a send-message request whose payload is null or undefined emits
no event at all: the destructuring throws before the ready check and the
catch block's `data.tempId` access throws again, so neither confirmation
nor error is emitted and no adapter call is performed. -/
theorem send_message_null_payload_emits_nothing (st : SessState)
    (send : Except String SentMsg) :
    handleSendMessage st send .nullData = ([], []) := rfl

/-- C2: while the session is not ready, `get-chats` and
`get-chat-messages` each emit only the not-ready `error-message` to the
requesting connection and perform no adapter call at all; in particular
no `chats` or `chat-messages` event is emitted. -/
theorem not_ready_requests_emit_error_only (st : SessState)
    (oracle : Nat → Except String (List RawChat)) (chatId : String)
    (lookup : Except String (Option ChatObj)) (nowMs : Nat)
    (rand : RawMsg → String) (h : st.isClientReady = false) :
    handleGetChats st oracle = ([.errorMessage notReadyError], [])
    ∧ handleGetChatMessages st chatId lookup nowMs rand
      = ([.errorMessage notReadyError], []) := by
  constructor <;> simp [handleGetChats, handleGetChatMessages, h]

/-- Witness for `not_ready_requests_emit_error_only` at a concrete
not-ready state. -/
theorem not_ready_requests_emit_error_only_witness :
    handleGetChats ⟨true, false, false, false, none⟩ (fun _ => .ok [])
      = ([.errorMessage notReadyError], [])
    ∧ handleGetChatMessages ⟨true, false, false, false, none⟩ "123@c.us"
        (.ok none) 0 (fun _ => "r")
      = ([.errorMessage notReadyError], []) :=
  not_ready_requests_emit_error_only ⟨true, false, false, false, none⟩
    (fun _ => .ok []) "123@c.us" (.ok none) 0 (fun _ => "r") rfl

/-- C3: if a first call to `initializeClientIfNeeded` reached the
adapter's initialization (so the in-flight latch is set), a second call
arriving before the first resumes performs no further initialization and
leaves the state unchanged; the two calls together invoke the adapter's
initialization exactly once, and when the first call resumes the latch
is cleared on success and failure alike. -/
theorem ensure_initialized_single_inflight (s0 : SessState)
    (hstart : (initializeClientIfNeededPhase1 s0).2 = .started) :
    (initializeClientIfNeededPhase1 (initializeClientIfNeededPhase1 s0).1).2 = .skipped
    ∧ (initializeClientIfNeededPhase1 (initializeClientIfNeededPhase1 s0).1).1
      = (initializeClientIfNeededPhase1 s0).1
    ∧ initCount (initializeClientIfNeededPhase1 s0).2
      + initCount (initializeClientIfNeededPhase1 (initializeClientIfNeededPhase1 s0).1).2 = 1
    ∧ ∀ ok : Bool,
        ((initializeClientIfNeededPhase2 (initializeClientIfNeededPhase1 s0).1 ok).1).isInitializing
          = false := by
  have h1 : (initializeClientIfNeededPhase1 s0).1.isInitializing = true :=
    initializeClientIfNeededPhase1_started s0 hstart
  have h2 := initializeClientIfNeededPhase1_of_initializing _ h1
  refine ⟨by rw [h2], by rw [h2], by rw [hstart, h2]; rfl, ?_⟩
  intro ok
  cases ok <;> simp [initializeClientIfNeededPhase2]

/-- Witness for `ensure_initialized_single_inflight` starting from the
fresh initial state of the process. -/
theorem ensure_initialized_single_inflight_witness :
    (initializeClientIfNeededPhase1 ⟨false, false, false, false, none⟩).2 = .started
    ∧ ((initializeClientIfNeededPhase1
        (initializeClientIfNeededPhase1 ⟨false, false, false, false, none⟩).1).2 = .skipped
      ∧ (initializeClientIfNeededPhase1
          (initializeClientIfNeededPhase1 ⟨false, false, false, false, none⟩).1).1
        = (initializeClientIfNeededPhase1 ⟨false, false, false, false, none⟩).1
      ∧ initCount (initializeClientIfNeededPhase1 ⟨false, false, false, false, none⟩).2
        + initCount (initializeClientIfNeededPhase1
            (initializeClientIfNeededPhase1 ⟨false, false, false, false, none⟩).1).2 = 1
      ∧ ∀ ok : Bool,
          ((initializeClientIfNeededPhase2
            (initializeClientIfNeededPhase1 ⟨false, false, false, false, none⟩).1 ok).1).isInitializing
            = false) :=
  ⟨rfl, ensure_initialized_single_inflight ⟨false, false, false, false, none⟩ rfl⟩

/-- C5 counterexample: when `fs.rm` fails (its throw is caught and only
logged, index.js 169-174), the session-store directory still exists
after the `disconnected` handler, so the claim's unconditional
"directory no longer exists" is false at this input. -/
theorem disconnected_dir_persists_on_rm_failure :
    ¬ ((handleDisconnected ⟨true, true, true, false, none⟩ true (.ok ())
        (.error "EACCES")).dirExists = false) := by
  decide

/-- C5 amended: after the `disconnected` handler runs, provided the
recursive delete of the session-store directory succeeded, the directory
no longer exists; unconditionally, the client reference,
`isClientReady`, `clientInitialized` and `lastQrDataUrl` are reset to
their initial values and each of `status:"disconnected"` and
`logged_out` is broadcast exactly once. -/
theorem disconnected_resets_and_broadcasts (s : SessState) (dirBefore : Bool)
    (destroyOut rmOut : Except String Unit) :
    ((rmOut = .ok ()) →
      (handleDisconnected s dirBefore destroyOut rmOut).dirExists = false)
    ∧ (handleDisconnected s dirBefore destroyOut rmOut).state.hasClient = false
    ∧ (handleDisconnected s dirBefore destroyOut rmOut).state.isClientReady = false
    ∧ (handleDisconnected s dirBefore destroyOut rmOut).state.clientInitialized = false
    ∧ (handleDisconnected s dirBefore destroyOut rmOut).state.lastQrDataUrl = none
    ∧ (handleDisconnected s dirBefore destroyOut rmOut).events.countP
        (fun e => e = Event.status "disconnected") = 1
    ∧ (handleDisconnected s dirBefore destroyOut rmOut).events.countP
        (fun e => e = Event.loggedOut) = 1 := by
  refine ⟨?_, rfl, rfl, rfl, rfl, by simp [handleDisconnected], by simp [handleDisconnected]⟩
  intro hrm
  simp [handleDisconnected, hrm]

/-- Witness for `disconnected_resets_and_broadcasts` with a successful
directory delete. -/
theorem disconnected_resets_and_broadcasts_witness :
    (handleDisconnected ⟨true, true, true, false, some "qr"⟩ true (.ok ())
      (.ok ())).dirExists = false
    ∧ (handleDisconnected ⟨true, true, true, false, some "qr"⟩ true (.ok ())
        (.ok ())).state.lastQrDataUrl = none :=
  ⟨(disconnected_resets_and_broadcasts ⟨true, true, true, false, some "qr"⟩ true
      (.ok ()) (.ok ())).1 rfl,
   (disconnected_resets_and_broadcasts ⟨true, true, true, false, some "qr"⟩ true
      (.ok ()) (.ok ())).2.2.2.2.1⟩

/-- C6: the formatted chat list never exceeds 50 entries, and on a
successful fetch it is exactly the projection of the first 50 raw chats
in the adapter's native ordering. -/
theorem chat_list_capped_at_50 (ready hc : Bool)
    (oracle : Nat → Except String (List RawChat)) :
    (getFormattedChats ready hc oracle).chats.length ≤ 50
    ∧ (∀ raw, oracle 0 = .ok raw → ready = true → hc = true →
        (getFormattedChats ready hc oracle).chats = (raw.take 50).map formatChat) := by
  constructor
  · exact getChatsAttempt_chats_length ready hc oracle 3 0
  · intro raw h0 hr hh
    unfold getFormattedChats
    rw [getChatsAttempt]
    simp [hr, hh, h0]

/-- Witness for `chat_list_capped_at_50` on a concrete two-chat adapter
result. -/
theorem chat_list_capped_at_50_witness :
    (getFormattedChats true true (fun _ =>
      .ok [⟨⟨"1@c.us", "1"⟩, "Alice", "", false, 0, 5, none⟩,
           ⟨⟨"2@c.us", "2"⟩, "Bob", "", false, 1, 7, none⟩])).chats
      = [formatChat ⟨⟨"1@c.us", "1"⟩, "Alice", "", false, 0, 5, none⟩,
         formatChat ⟨⟨"2@c.us", "2"⟩, "Bob", "", false, 1, 7, none⟩] :=
  (chat_list_capped_at_50 true true (fun _ =>
      .ok [⟨⟨"1@c.us", "1"⟩, "Alice", "", false, 0, 5, none⟩,
           ⟨⟨"2@c.us", "2"⟩, "Bob", "", false, 1, 7, none⟩])).2
    [⟨⟨"1@c.us", "1"⟩, "Alice", "", false, 0, 5, none⟩,
     ⟨⟨"2@c.us", "2"⟩, "Bob", "", false, 1, 7, none⟩] rfl rfl rfl

/-- C4: `getFormattedChats` never propagates an error and always returns
a list: not ready means an immediate `[]` with no fetch; a
session-closed failure means `[]` after the single failed fetch with no
retry and no delay; four consecutive other failures (the initial call
plus the 3 retries, each retry after a fixed 500ms delay) mean `[]`
after exactly 4 fetches and 1500ms of accumulated delay. -/
theorem getFormattedChats_retry_policy (ready hc : Bool)
    (oracle : Nat → Except String (List RawChat)) :
    (ready = false ∨ hc = false → getFormattedChats ready hc oracle = ⟨[], 0, 0⟩)
    ∧ (∀ msg, oracle 0 = .error msg → containsSub msg "Session closed" = true →
        ready = true → hc = true →
        getFormattedChats ready hc oracle = ⟨[], 1, 0⟩)
    ∧ ((∀ k, k ≤ 3 → ∃ msg, oracle k = .error msg
          ∧ containsSub msg "Session closed" = false) →
        ready = true → hc = true →
        getFormattedChats ready hc oracle = ⟨[], 4, 1500⟩) := by
  refine ⟨?_, ?_, ?_⟩
  · intro h
    unfold getFormattedChats
    rw [getChatsAttempt]
    rcases h with h | h <;> simp [h]
  · intro msg h0 hclosed hr hh
    unfold getFormattedChats
    rw [getChatsAttempt]
    simp [hr, hh, h0, hclosed]
  · intro hall hr hh
    obtain ⟨m0, e0, c0⟩ := hall 0 (by omega)
    obtain ⟨m1, e1, c1⟩ := hall 1 (by omega)
    obtain ⟨m2, e2, c2⟩ := hall 2 (by omega)
    obtain ⟨m3, e3, c3⟩ := hall 3 (by omega)
    subst hr; subst hh
    unfold getFormattedChats
    rw [getChatsAttempt]
    simp only [e0, c0, Bool.not_true, Bool.or_self, Bool.false_eq_true, if_false,
      Bool.if_false_left]
    rw [getChatsAttempt]
    simp only [e1, c1, Bool.not_true, Bool.or_self, Bool.false_eq_true, if_false,
      Bool.if_false_left]
    rw [getChatsAttempt]
    simp only [e2, c2, Bool.not_true, Bool.or_self, Bool.false_eq_true, if_false,
      Bool.if_false_left]
    rw [getChatsAttempt]
    simp [e3, c3]

/-- Witness for `getFormattedChats_retry_policy`, exercising the
not-ready, session-closed, and retry-exhaustion branches on concrete
oracles. -/
theorem getFormattedChats_retry_policy_witness :
    getFormattedChats false true (fun _ => .error "boom") = ⟨[], 0, 0⟩
    ∧ getFormattedChats true true (fun _ => .error "Session closed.") = ⟨[], 1, 0⟩
    ∧ getFormattedChats true true (fun _ => .error "timeout") = ⟨[], 4, 1500⟩ :=
  ⟨(getFormattedChats_retry_policy false true (fun _ => .error "boom")).1 (Or.inl rfl),
   (getFormattedChats_retry_policy true true (fun _ => .error "Session closed.")).2.1
     "Session closed." rfl (by decide) rfl rfl,
   (getFormattedChats_retry_policy true true (fun _ => .error "timeout")).2.2
     (fun k _ => ⟨"timeout", rfl, by decide⟩) rfl rfl⟩

/-- C10: every entry of every formatted chat list carries
`profilePicUrl = null` — a field beyond the documented simplified Chat
shape — and the `name` field is never absent: it is the chat's name,
falling back to `formattedTitle`, then the id's `user` part, then the
serialized id. -/
theorem formatted_chats_profile_pic_null_and_name_fallback
    (ready hc : Bool) (oracle : Nat → Except String (List RawChat)) :
    (∀ c ∈ (getFormattedChats ready hc oracle).chats, c.profilePicUrl = none)
    ∧ (∀ r : RawChat,
        (r.name ≠ "" → (formatChat r).name = r.name)
        ∧ (r.name = "" → r.formattedTitle ≠ "" → (formatChat r).name = r.formattedTitle)
        ∧ (r.name = "" → r.formattedTitle = "" → r.id.user ≠ "" →
            (formatChat r).name = r.id.user)
        ∧ (r.name = "" → r.formattedTitle = "" → r.id.user = "" →
            (formatChat r).name = r.id.serialized)) := by
  constructor
  · exact fun c hmem => getChatsAttempt_profilePic ready hc oracle 3 0 c hmem
  · intro r
    refine ⟨fun h1 => by simp [formatChat, jsOrS, h1],
            fun h1 h2 => by simp [formatChat, jsOrS, h1, h2],
            fun h1 h2 h3 => by simp [formatChat, jsOrS, h1, h2, h3],
            fun h1 h2 h3 => by simp [formatChat, jsOrS, h1, h2, h3]⟩

/-- Witness for `formatted_chats_profile_pic_null_and_name_fallback` on
a one-chat oracle and a nameless raw chat. -/
theorem formatted_chats_profile_pic_null_and_name_fallback_witness :
    (formatChat ⟨⟨"9@c.us", "9"⟩, "", "Group Nine", true, 2, 3, none⟩).profilePicUrl = none
    ∧ (formatChat ⟨⟨"9@c.us", "9"⟩, "", "Group Nine", true, 2, 3, none⟩).name = "Group Nine" :=
  ⟨(formatted_chats_profile_pic_null_and_name_fallback true true (fun _ =>
      .ok [⟨⟨"9@c.us", "9"⟩, "", "Group Nine", true, 2, 3, none⟩])).1
    (formatChat ⟨⟨"9@c.us", "9"⟩, "", "Group Nine", true, 2, 3, none⟩)
    (by simp [getFormattedChats, getChatsAttempt]),
   ((formatted_chats_profile_pic_null_and_name_fallback true true (fun _ =>
      .ok [])).2 ⟨⟨"9@c.us", "9"⟩, "", "Group Nine", true, 2, 3, none⟩).2.1 rfl
     (by decide)⟩

/-- C7: no `chat-messages` response ever contains a message whose type
is "revoked": revoked raw messages are filtered out before projection,
and projection never produces the type "revoked" from a non-revoked raw
message. -/
theorem chat_messages_never_revoked (st : SessState) (chatId : String)
    (lookup : Except String (Option ChatObj)) (nowMs : Nat)
    (rand : RawMsg → String) :
    ∀ c msgs,
      Event.chatMessages c msgs ∈ (handleGetChatMessages st chatId lookup nowMs rand).1 →
      ∀ m ∈ msgs, m.type ≠ some "revoked" := by
  intro c msgs hmem m hm
  unfold handleGetChatMessages at hmem
  by_cases hr : st.isClientReady
  · simp only [hr, Bool.not_true, Bool.false_eq_true, if_false] at hmem
    rcases lookup with e | co
    · simp at hmem
      rcases hmem with ⟨_, h2⟩
      subst h2; simp at hm
    · rcases co with _ | chat
      · simp at hmem
        rcases hmem with ⟨_, h2⟩
        subst h2; simp at hm
      · rcases hf : chat.fetch 100 with e2 | msgs0
        · simp [hf] at hmem
          rcases hmem with ⟨_, h2⟩
          subst h2; simp at hm
        · simp [hf] at hmem
          rcases hmem with ⟨_, h2⟩
          subst h2
          simp only [List.mem_map] at hm
          obtain ⟨m0, hm0, hproj⟩ := hm
          rw [List.mem_filter] at hm0
          have ht : m0.type ≠ "revoked" := by simpa using hm0.2
          rw [← hproj]
          exact projectMsg_type_ne_revoked nowMs rand m0 ht
  · simp [hr] at hmem

/-- Witness for `chat_messages_never_revoked` on a concrete response
containing one ordinary message. -/
theorem chat_messages_never_revoked_witness :
    (projectMsg 0 (fun _ => "r")
      ⟨some ⟨"id1"⟩, "hello", false, 10, false, "chat", 1, .ok none⟩).type
      ≠ some "revoked" :=
  chat_messages_never_revoked ⟨true, true, true, false, none⟩ "123@c.us"
    (.ok (some ⟨fun _ => .ok [⟨some ⟨"id1"⟩, "hello", false, 10, false, "chat", 1, .ok none⟩,
                              ⟨some ⟨"id2"⟩, "", false, 11, false, "revoked", 1, .ok none⟩]⟩))
    0 (fun _ => "r") "123@c.us"
    [projectMsg 0 (fun _ => "r") ⟨some ⟨"id1"⟩, "hello", false, 10, false, "chat", 1, .ok none⟩]
    (by simp [handleGetChatMessages])
    (projectMsg 0 (fun _ => "r") ⟨some ⟨"id1"⟩, "hello", false, 10, false, "chat", 1, .ok none⟩)
    (by simp)

/-- Condition under which a `get-message-media` request cannot be
served: the chat lookup throws or yields no chat, the 200-message fetch
throws, or every fetched message whose id matches the requested
`messageId` has no media (in particular, when no id matches at all). -/
def mediaUnresolvable (mid : String) : Except String (Option ChatObj) → Prop
  | .error _ => True
  | .ok none => True
  | .ok (some chat) =>
    match chat.fetch 200 with
    | .error _ => True
    | .ok msgs => ∀ m ∈ msgs, ∀ i, m.id = some i → i.serialized = mid → m.hasMedia = false

/-- C8: while the session is ready, a `get-message-media` request whose
target cannot be resolved — no message with the requested id among the
200 fetched messages, a found message without media, or an unresolvable
chat — emits `message-media-failed` carrying the same `messageId`; while
not ready the handler emits nothing at all. -/
theorem message_media_failed_when_unresolvable (st : SessState)
    (chatId messageId : String) (lookup : Except String (Option ChatObj)) :
    (st.isClientReady = false →
      handleGetMessageMedia st chatId messageId lookup = ([], []))
    ∧ (st.isClientReady = true → mediaUnresolvable messageId lookup →
        (handleGetMessageMedia st chatId messageId lookup).1
          = [.messageMediaFailed messageId]) := by
  constructor
  · intro hr
    simp [handleGetMessageMedia, hr]
  · intro hr hu
    unfold handleGetMessageMedia
    simp only [hr, Bool.not_true, Bool.false_eq_true, if_false]
    rcases lookup with e | co
    · rfl
    · rcases co with _ | chat
      · rfl
      · simp only
        rcases hf : chat.fetch 200 with e2 | msgs
        · rfl
        · simp only [mediaUnresolvable, hf] at hu
          have hfind := findMsg_no_media messageId msgs hu
          rcases hfm : findMsg messageId msgs with e3 | om
          · simp [hfm]
          · rcases om with _ | m
            · simp [hfm]
            · rw [hfm] at hfind
              simp only at hfind
              simp [hfm, hfind]

/-- Witness for `message_media_failed_when_unresolvable`: a not-ready
request emits nothing; a ready request against an unresolvable chat
emits the failure keyed by the same message id. -/
theorem message_media_failed_when_unresolvable_witness :
    handleGetMessageMedia ⟨true, false, false, false, none⟩ "123@c.us" "m1" (.ok none)
      = ([], [])
    ∧ (handleGetMessageMedia ⟨true, true, true, false, none⟩ "123@c.us" "m1" (.ok none)).1
      = [.messageMediaFailed "m1"] :=
  ⟨(message_media_failed_when_unresolvable ⟨true, false, false, false, none⟩
      "123@c.us" "m1" (.ok none)).1 rfl,
   (message_media_failed_when_unresolvable ⟨true, true, true, false, none⟩
      "123@c.us" "m1" (.ok none)).2 rfl trivial⟩

end ClinicBackend
